import Mathlib

/-!
Verification of the decision core of the LLM-Reliability-Control-Plane
repository: the health scorer (`app/health_score.py`), the anomaly
attribution engine (`app/anomaly_attribution_engine.py`), the ML model
router (`app/model_router.py`), the cost predictor
(`app/ml_cost_predictor.py`) and the insights aggregator
(`app/ml_insights.py`).

Numeric conventions: Python floats are embedded as exact rationals (`ℚ`);
Python's built-in `round(x, d)` (round-half-even) is embedded as `pyRound`.
External collaborators (the sklearn regression model, the Datadog watchdog
client) are abstracted as explicit oracle parameters, so every definition
stays executable.
-/

/-- Round-half-even to an integer: the idealization over `ℚ` of Python's
built-in `round` tie-breaking (banker's rounding). `Rat.floor` is used
instead of `⌊·⌋` to keep the definition kernel-computable. -/
def roundHalfEven (x : ℚ) : ℤ :=
  if x - x.floor < 1/2 then x.floor
  else if 1/2 < x - x.floor then x.floor + 1
  else if x.floor % 2 = 0 then x.floor else x.floor + 1

/-- Embedding of Python's `round(x, d)` over exact rationals. -/
def pyRound (d : ℕ) (x : ℚ) : ℚ := (roundHalfEven (x * 10 ^ d) : ℚ) / 10 ^ d

theorem rat_floor_eq_floor (x : ℚ) : x.floor = ⌊x⌋ := by
  rw [Rat.floor_def', Rat.floor_def]

theorem floor_le_roundHalfEven (x : ℚ) : ⌊x⌋ ≤ roundHalfEven x := by
  unfold roundHalfEven
  rw [rat_floor_eq_floor]
  split_ifs <;> omega

theorem roundHalfEven_le_ceil (x : ℚ) : roundHalfEven x ≤ ⌈x⌉ := by
  have hcf : ⌊x⌋ ≤ ⌈x⌉ := Int.floor_le_ceil x
  have key : 1/2 ≤ x - ⌊x⌋ → ⌊x⌋ + 1 ≤ ⌈x⌉ := by
    intro hh
    have hlt : (⌊x⌋ : ℚ) < x := by linarith
    have : (⌊x⌋ : ℚ) < ⌈x⌉ := lt_of_lt_of_le hlt (Int.le_ceil x)
    exact_mod_cast this
  unfold roundHalfEven
  rw [rat_floor_eq_floor]
  split_ifs with h1 h2 h3
  · exact hcf
  · exact key (by linarith)
  · exact hcf
  · exact key (by linarith)

theorem roundHalfEven_le_floor_add_one (x : ℚ) : roundHalfEven x ≤ ⌊x⌋ + 1 := by
  unfold roundHalfEven
  rw [rat_floor_eq_floor]
  split_ifs <;> omega

theorem roundHalfEven_mono {x y : ℚ} (h : x ≤ y) :
    roundHalfEven x ≤ roundHalfEven y := by
  have hf : ⌊x⌋ ≤ ⌊y⌋ := Int.floor_le_floor h
  by_cases hxy : ⌊x⌋ = ⌊y⌋
  · have hfr : x - ⌊x⌋ ≤ y - ⌊y⌋ := by
      rw [← hxy]; linarith
    unfold roundHalfEven
    rw [rat_floor_eq_floor, rat_floor_eq_floor]
    split_ifs <;> first | omega | (exfalso; linarith)
  · have h1 : ⌊x⌋ + 1 ≤ ⌊y⌋ := by omega
    calc roundHalfEven x ≤ ⌊x⌋ + 1 := roundHalfEven_le_floor_add_one x
    _ ≤ ⌊y⌋ := h1
    _ ≤ roundHalfEven y := floor_le_roundHalfEven y

theorem pyRound_mono (d : ℕ) {x y : ℚ} (h : x ≤ y) : pyRound d x ≤ pyRound d y := by
  unfold pyRound
  have hp : (0:ℚ) < 10 ^ d := by positivity
  have hr : roundHalfEven (x * 10 ^ d) ≤ roundHalfEven (y * 10 ^ d) :=
    roundHalfEven_mono (by nlinarith)
  have : ((roundHalfEven (x * 10 ^ d) : ℤ) : ℚ) ≤ ((roundHalfEven (y * 10 ^ d) : ℤ) : ℚ) := by
    exact_mod_cast hr
  exact div_le_div_of_nonneg_right this hp.le

theorem pyRound_le_of_le (d : ℕ) {x : ℚ} {n : ℤ} (h : x ≤ (n : ℚ)) :
    pyRound d x ≤ (n : ℚ) := by
  unfold pyRound
  have hp : (0:ℚ) < 10 ^ d := by positivity
  have h1 : x * 10 ^ d ≤ ((n * 10 ^ d : ℤ) : ℚ) := by push_cast; nlinarith
  have h2 : roundHalfEven (x * 10 ^ d) ≤ n * 10 ^ d := by
    calc roundHalfEven (x * 10 ^ d) ≤ ⌈x * 10 ^ d⌉ := roundHalfEven_le_ceil _
    _ ≤ n * 10 ^ d := Int.ceil_le.mpr h1
  rw [div_le_iff₀ hp]
  exact_mod_cast h2

theorem le_pyRound_of_le (d : ℕ) {x : ℚ} {n : ℤ} (h : (n : ℚ) ≤ x) :
    (n : ℚ) ≤ pyRound d x := by
  unfold pyRound
  have hp : (0:ℚ) < 10 ^ d := by positivity
  have h1 : ((n * 10 ^ d : ℤ) : ℚ) ≤ x * 10 ^ d := by push_cast; nlinarith
  have h2 : n * 10 ^ d ≤ roundHalfEven (x * 10 ^ d) := by
    calc n * 10 ^ d ≤ ⌊x * 10 ^ d⌋ := Int.le_floor.mpr h1
    _ ≤ roundHalfEven (x * 10 ^ d) := floor_le_roundHalfEven _
  rw [le_div_iff₀ hp]
  exact_mod_cast h2

namespace HealthScore

/-- Result record returned by `calculate_health_score`
(`app/health_score.py` lines 103-120; the `breakdown` entry, which merely
echoes the inputs, is omitted). -/
structure HealthResult where
  health_score : ℚ
  performance_score : ℚ
  reliability_score : ℚ
  cost_score : ℚ
  quality_score : ℚ
  security_score : ℚ
  efficiency_bonus : ℚ
deriving Repr, DecidableEq

/-- Performance score from latency (`health_score.py` lines 43-51).
Line 46 of the source assigns `80.0 + (500/500)*20` and is immediately
overwritten by line 47, so only the second assignment is kept. -/
def performanceScore (latency_ms : ℚ) : ℚ :=
  if latency_ms < 500 then 100
  else if latency_ms < 1000 then max 80 (100 - (latency_ms - 500) / 500 * 20)
  else if latency_ms < 1500 then 60 - (latency_ms - 1000) / 500 * 60
  else max 0 (60 - (latency_ms - 1500) / 500 * 60)

/-- Reliability score from error and retry rates (`health_score.py` lines 55-57). -/
def reliabilityScore (error_rate retry_rate : ℚ) : ℚ :=
  let base := max 0 (100 - error_rate * 1000)
  let retry_penalty := min 20 (retry_rate * 100)
  max 0 (base - retry_penalty)

/-- Cost score from cost per request (`health_score.py` lines 62-69). -/
def costScore (cost_per_request : ℚ) : ℚ :=
  if cost_per_request < 0.001 then 100
  else if cost_per_request < 0.01 then 80 - (cost_per_request - 0.001) / 0.009 * 20
  else if cost_per_request < 0.1 then 60 - (cost_per_request - 0.01) / 0.09 * 60
  else max 0 (60 - (cost_per_request - 0.1) / 0.1 * 60)

/-- Security score from safety block rate (`health_score.py` line 76). -/
def securityScore (safety_block_rate : ℚ) : ℚ :=
  max 0 (100 - safety_block_rate * 1000)

/-- Token efficiency bonus (`health_score.py` line 80). -/
def efficiencyBonus (token_efficiency : ℚ) : ℚ :=
  if 0 < token_efficiency then min 10 (token_efficiency * 10) else 0

/-- Embedding of `calculate_health_score` (`health_score.py` lines 17-120). -/
def calculate_health_score (latency_ms error_rate retry_rate cost_per_request
    quality_score safety_block_rate token_efficiency : ℚ) : HealthResult :=
  let performance_score := performanceScore latency_ms
  let reliability_score := reliabilityScore error_rate retry_rate
  let cost_score := costScore cost_per_request
  let quality_score_normalized := quality_score * 100
  let security_score := securityScore safety_block_rate
  let efficiency_bonus := efficiencyBonus token_efficiency
  let health_score :=
    performance_score * 0.25 + reliability_score * 0.25 + cost_score * 0.20
      + quality_score_normalized * 0.20 + security_score * 0.10 + efficiency_bonus
  let health_score := min 100 health_score
  { health_score := pyRound 2 health_score
    performance_score := pyRound 2 performance_score
    reliability_score := pyRound 2 reliability_score
    cost_score := pyRound 2 cost_score
    quality_score := pyRound 2 quality_score_normalized
    security_score := pyRound 2 security_score
    efficiency_bonus := pyRound 2 efficiency_bonus }

theorem performanceScore_bounds (latency_ms : ℚ) :
    0 ≤ performanceScore latency_ms ∧ performanceScore latency_ms ≤ 100 := by
  unfold performanceScore
  split_ifs with h1 h2 h3
  · norm_num
  · exact ⟨le_trans (by norm_num) (le_max_left _ _), max_le (by norm_num) (by linarith)⟩
  · exact ⟨by linarith, by linarith⟩
  · exact ⟨le_max_left _ _, max_le (by norm_num) (by linarith)⟩

theorem reliabilityScore_bounds {error_rate retry_rate : ℚ}
    (her : 0 ≤ error_rate) (hrr : 0 ≤ retry_rate) :
    0 ≤ reliabilityScore error_rate retry_rate ∧
      reliabilityScore error_rate retry_rate ≤ 100 := by
  unfold reliabilityScore
  have hbase0 : (0:ℚ) ≤ max 0 (100 - error_rate * 1000) := le_max_left _ _
  have hbase : max 0 (100 - error_rate * 1000) ≤ 100 :=
    max_le (by norm_num) (by nlinarith)
  have hpen : (0:ℚ) ≤ min 20 (retry_rate * 100) :=
    le_min (by norm_num) (by nlinarith)
  exact ⟨le_max_left _ _, max_le (by norm_num) (by linarith)⟩

theorem costScore_bounds (cost_per_request : ℚ) :
    0 ≤ costScore cost_per_request ∧ costScore cost_per_request ≤ 100 := by
  unfold costScore
  rw [show (0.001:ℚ) = 1/1000 by norm_num, show (0.01:ℚ) = 1/100 by norm_num,
    show (0.009:ℚ) = 9/1000 by norm_num, show (0.09:ℚ) = 9/100 by norm_num,
    show (0.1:ℚ) = 1/10 by norm_num]
  split_ifs with h1 h2 h3
  · norm_num
  · exact ⟨by linarith, by linarith⟩
  · exact ⟨by linarith, by linarith⟩
  · exact ⟨le_max_left _ _, max_le (by norm_num) (by linarith)⟩

theorem securityScore_bounds {safety_block_rate : ℚ} (h : 0 ≤ safety_block_rate) :
    0 ≤ securityScore safety_block_rate ∧ securityScore safety_block_rate ≤ 100 := by
  unfold securityScore
  exact ⟨le_max_left _ _, max_le (by norm_num) (by nlinarith)⟩

theorem efficiencyBonus_bounds (token_efficiency : ℚ) :
    0 ≤ efficiencyBonus token_efficiency ∧ efficiencyBonus token_efficiency ≤ 10 := by
  unfold efficiencyBonus
  split_ifs with h
  · exact ⟨le_min (by norm_num) (by nlinarith), min_le_left _ _⟩
  · norm_num

theorem pyRound_nonneg (d : ℕ) {x : ℚ} (h : 0 ≤ x) : 0 ≤ pyRound d x := by
  have h0 : ((0:ℤ):ℚ) ≤ x := by exact_mod_cast h
  simpa using le_pyRound_of_le d h0

theorem pyRound_le_hundred (d : ℕ) {x : ℚ} (h : x ≤ 100) : pyRound d x ≤ 100 := by
  have h0 : x ≤ ((100:ℤ):ℚ) := by exact_mod_cast h
  simpa using pyRound_le_of_le d h0

theorem pyRound_le_ten (d : ℕ) {x : ℚ} (h : x ≤ 10) : pyRound d x ≤ 10 := by
  have h0 : x ≤ ((10:ℤ):ℚ) := by exact_mod_cast h
  simpa using pyRound_le_of_le d h0

/-- C1: for every input to `calculate_health_score` with `error_rate`,
`retry_rate`, `safety_block_rate` and `quality_score` in `[0,1]` and
`latency_ms`, `cost_per_request`, `token_efficiency` non-negative, the
returned `health_score` lies in `[0,100]`, each of the five sub-scores lies
in `[0,100]`, and `efficiency_bonus` lies in `[0,10]`. -/
theorem health_score_bounded
    (latency_ms error_rate retry_rate cost_per_request quality_score
      safety_block_rate token_efficiency : ℚ)
    (h1 : 0 ≤ error_rate) (h2 : error_rate ≤ 1)
    (h3 : 0 ≤ retry_rate) (h4 : retry_rate ≤ 1)
    (h5 : 0 ≤ safety_block_rate) (h6 : safety_block_rate ≤ 1)
    (h7 : 0 ≤ quality_score) (h8 : quality_score ≤ 1)
    (h9 : 0 ≤ latency_ms) (h10 : 0 ≤ cost_per_request) (h11 : 0 ≤ token_efficiency) :
    (0 ≤ (calculate_health_score latency_ms error_rate retry_rate cost_per_request
        quality_score safety_block_rate token_efficiency).health_score ∧
      (calculate_health_score latency_ms error_rate retry_rate cost_per_request
        quality_score safety_block_rate token_efficiency).health_score ≤ 100) ∧
    (0 ≤ (calculate_health_score latency_ms error_rate retry_rate cost_per_request
        quality_score safety_block_rate token_efficiency).performance_score ∧
      (calculate_health_score latency_ms error_rate retry_rate cost_per_request
        quality_score safety_block_rate token_efficiency).performance_score ≤ 100) ∧
    (0 ≤ (calculate_health_score latency_ms error_rate retry_rate cost_per_request
        quality_score safety_block_rate token_efficiency).reliability_score ∧
      (calculate_health_score latency_ms error_rate retry_rate cost_per_request
        quality_score safety_block_rate token_efficiency).reliability_score ≤ 100) ∧
    (0 ≤ (calculate_health_score latency_ms error_rate retry_rate cost_per_request
        quality_score safety_block_rate token_efficiency).cost_score ∧
      (calculate_health_score latency_ms error_rate retry_rate cost_per_request
        quality_score safety_block_rate token_efficiency).cost_score ≤ 100) ∧
    (0 ≤ (calculate_health_score latency_ms error_rate retry_rate cost_per_request
        quality_score safety_block_rate token_efficiency).quality_score ∧
      (calculate_health_score latency_ms error_rate retry_rate cost_per_request
        quality_score safety_block_rate token_efficiency).quality_score ≤ 100) ∧
    (0 ≤ (calculate_health_score latency_ms error_rate retry_rate cost_per_request
        quality_score safety_block_rate token_efficiency).security_score ∧
      (calculate_health_score latency_ms error_rate retry_rate cost_per_request
        quality_score safety_block_rate token_efficiency).security_score ≤ 100) ∧
    (0 ≤ (calculate_health_score latency_ms error_rate retry_rate cost_per_request
        quality_score safety_block_rate token_efficiency).efficiency_bonus ∧
      (calculate_health_score latency_ms error_rate retry_rate cost_per_request
        quality_score safety_block_rate token_efficiency).efficiency_bonus ≤ 10) := by
  have hperf := performanceScore_bounds latency_ms
  have hrel := reliabilityScore_bounds h1 h3
  have hcost := costScore_bounds cost_per_request
  have hsec := securityScore_bounds h5
  have heff := efficiencyBonus_bounds token_efficiency
  have hq : 0 ≤ quality_score * 100 ∧ quality_score * 100 ≤ 100 :=
    ⟨by nlinarith, by nlinarith⟩
  simp only [calculate_health_score]
  have hraw0 : (0:ℚ) ≤ performanceScore latency_ms * 0.25
      + reliabilityScore error_rate retry_rate * 0.25
      + costScore cost_per_request * 0.20 + quality_score * 100 * 0.20
      + securityScore safety_block_rate * 0.10 + efficiencyBonus token_efficiency := by
    nlinarith [hperf.1, hrel.1, hcost.1, hq.1, hsec.1, heff.1]
  refine ⟨⟨pyRound_nonneg 2 (le_min (by norm_num) hraw0), pyRound_le_hundred 2 (min_le_left _ _)⟩,
    ⟨pyRound_nonneg 2 hperf.1, pyRound_le_hundred 2 hperf.2⟩,
    ⟨pyRound_nonneg 2 hrel.1, pyRound_le_hundred 2 hrel.2⟩,
    ⟨pyRound_nonneg 2 hcost.1, pyRound_le_hundred 2 hcost.2⟩,
    ⟨pyRound_nonneg 2 hq.1, pyRound_le_hundred 2 hq.2⟩,
    ⟨pyRound_nonneg 2 hsec.1, pyRound_le_hundred 2 hsec.2⟩,
    ⟨pyRound_nonneg 2 heff.1, pyRound_le_ten 2 heff.2⟩⟩

/-- Witness for `health_score_bounded` at the concrete snapshot
latency 700ms, error rate 0.05, retry rate 0.1, cost 0.005, quality 0.9,
safety block rate 0.01, token efficiency 0.5. -/
theorem health_score_bounded_witness :
    (0 ≤ (calculate_health_score 700 0.05 0.1 0.005 0.9 0.01 0.5).health_score ∧
      (calculate_health_score 700 0.05 0.1 0.005 0.9 0.01 0.5).health_score ≤ 100) ∧
    (0 ≤ (calculate_health_score 700 0.05 0.1 0.005 0.9 0.01 0.5).performance_score ∧
      (calculate_health_score 700 0.05 0.1 0.005 0.9 0.01 0.5).performance_score ≤ 100) ∧
    (0 ≤ (calculate_health_score 700 0.05 0.1 0.005 0.9 0.01 0.5).reliability_score ∧
      (calculate_health_score 700 0.05 0.1 0.005 0.9 0.01 0.5).reliability_score ≤ 100) ∧
    (0 ≤ (calculate_health_score 700 0.05 0.1 0.005 0.9 0.01 0.5).cost_score ∧
      (calculate_health_score 700 0.05 0.1 0.005 0.9 0.01 0.5).cost_score ≤ 100) ∧
    (0 ≤ (calculate_health_score 700 0.05 0.1 0.005 0.9 0.01 0.5).quality_score ∧
      (calculate_health_score 700 0.05 0.1 0.005 0.9 0.01 0.5).quality_score ≤ 100) ∧
    (0 ≤ (calculate_health_score 700 0.05 0.1 0.005 0.9 0.01 0.5).security_score ∧
      (calculate_health_score 700 0.05 0.1 0.005 0.9 0.01 0.5).security_score ≤ 100) ∧
    (0 ≤ (calculate_health_score 700 0.05 0.1 0.005 0.9 0.01 0.5).efficiency_bonus ∧
      (calculate_health_score 700 0.05 0.1 0.005 0.9 0.01 0.5).efficiency_bonus ≤ 10) :=
  health_score_bounded 700 0.05 0.1 0.005 0.9 0.01 0.5
    (by norm_num) (by norm_num) (by norm_num) (by norm_num) (by norm_num)
    (by norm_num) (by norm_num) (by norm_num) (by norm_num) (by norm_num) (by norm_num)

/-- C2 (code bug, evaluated): performance is not monotone in latency.
The source comment (health_score.py line 42) promises 0 above 1500ms, but
line 51 computes `max(0, 60 - ((latency-1500)/500)*60)`: at 1499ms the
performance score is 0.12, at 1500ms it jumps up to 60, so the input with
the smaller latency has the strictly smaller performance score. -/
theorem performance_monotonicity_violated_at_1500 :
    (calculate_health_score 1499 0 0 0 1 0 1).performance_score = 0.12 ∧
    (calculate_health_score 1500 0 0 0 1 0 1).performance_score = 60 ∧
    ¬ ((calculate_health_score 1500 0 0 0 1 0 1).performance_score ≤
        (calculate_health_score 1499 0 0 0 1 0 1).performance_score) := by
  norm_num [calculate_health_score, performanceScore, pyRound, roundHalfEven,
    rat_floor_eq_floor, max_def, min_def]

/-- C3 (code bug, evaluated): the latency-to-performance mapping is not 0
above 1500ms. At 1750ms the code (health_score.py line 51) yields 30, while
the in-code comment at line 42 and the spec both promise 0 there. -/
theorem performance_not_zero_above_1500 :
    performanceScore 1750 = 30 ∧
    (calculate_health_score 1750 0 0 0 1 0 1).performance_score = 30 ∧
    (30:ℚ) ≠ 0 := by
  norm_num [calculate_health_score, performanceScore, pyRound, roundHalfEven,
    rat_floor_eq_floor, max_def, min_def]

end HealthScore

namespace ModelRouter

/-- Static model registry entry (`app/model_router.py` lines 18-26). -/
structure ModelSpec where
  name : String
  cost_per_1k_tokens_input : ℚ
  cost_per_1k_tokens_output : ℚ
  avg_latency_ms : ℚ
  quality_score : ℚ
  max_tokens : ℕ
deriving Repr, DecidableEq

/-- The `gemini-1.5-flash` registry entry (`model_router.py` lines 46-53). -/
def gemini15flash : ModelSpec :=
  { name := "gemini-1.5-flash", cost_per_1k_tokens_input := 0.075,
    cost_per_1k_tokens_output := 0.30, avg_latency_ms := 200,
    quality_score := 0.75, max_tokens := 8192 }

/-- The `gemini-1.5-pro` registry entry (`model_router.py` lines 54-61). -/
def gemini15pro : ModelSpec :=
  { name := "gemini-1.5-pro", cost_per_1k_tokens_input := 1.25,
    cost_per_1k_tokens_output := 5.00, avg_latency_ms := 800,
    quality_score := 0.90, max_tokens := 8192 }

/-- The router's model registry in dict insertion order (`model_router.py` lines 45-62). -/
def registry : List ModelSpec := [gemini15flash, gemini15pro]

/-- Embedding of `_predict_required_quality` (`model_router.py` lines 227-254). -/
def predictRequiredQuality (request_type : String) (input_tokens : ℚ) : ℚ :=
  let base_quality :=
    if request_type = "qa" then 0.85
    else if request_type = "reason" then 0.90
    else if request_type = "stress" then 0.70
    else if request_type = "insights" then 0.80
    else 0.80
  let base_quality :=
    if 2000 < input_tokens then base_quality + 0.05
    else if input_tokens < 200 then base_quality - 0.05
    else base_quality
  max 0.5 (min 1.0 base_quality)

/-- Estimated request cost for a model (`model_router.py` lines 277-280). -/
def estimatedCost (m : ModelSpec) (input_tokens output_tokens : ℚ) : ℚ :=
  input_tokens / 1000 * m.cost_per_1k_tokens_input
    + output_tokens / 1000 * m.cost_per_1k_tokens_output

/-- The budget-compliance value assigned to the local `cost_score` at
`model_router.py` lines 301-305. In the source this local is computed and
then never read: it does not enter the returned score. -/
def budgetComplianceScore (actual_cost cost_budget : ℚ) : ℚ :=
  if actual_cost ≤ cost_budget then 1
  else max 0 (1 - (actual_cost - cost_budget) / cost_budget)

/-- Embedding of `_calculate_ml_model_score` (`model_router.py` lines
256-311). The local `cost_score` (budget compliance, lines 301-305) is kept
as in the source but is dead code there: only `cost_efficiency` carries the
30% cost weight (lines 308-309). -/
def calculateMlModelScore (m : ModelSpec)
    (required_quality min_quality max_latency cost_budget input_tokens output_tokens : ℚ) : ℚ :=
  let actual_cost := estimatedCost m input_tokens output_tokens
  let quality_threshold := max required_quality min_quality
  let quality_score :=
    if quality_threshold ≤ m.quality_score then 1
    else m.quality_score / quality_threshold
  let score := quality_score * 0.4
  let latency_score :=
    if m.avg_latency_ms ≤ max_latency then 1
    else max 0 (1 - (m.avg_latency_ms - max_latency) / max_latency)
  let score := score + latency_score * 0.3
  let cost_score := budgetComplianceScore actual_cost cost_budget
  let cost_efficiency := 1 / (1 + actual_cost * 100)
  let score := score + cost_efficiency * 0.3
  score

/-- Python's `max(model_scores, key=model_scores.get)` over the registry in
insertion order: the first candidate with maximal score (Python's `max`
keeps the current element unless a strictly greater one appears); `none`
exactly when the registry is empty, where Python's `max` raises. -/
def selectBest (score : ModelSpec → ℚ) : List ModelSpec → Option ModelSpec
  | [] => none
  | m :: ms => some (ms.foldl (fun acc x => if score acc < score x then x else acc) m)

/-- Routing confidence from the gap between the two best scores
(`model_router.py` lines 217-218); `sorted(..., reverse=True)` is a stable
descending sort, embedded as `List.insertionSort` with the reversed order. -/
def mlConfidence (scores : List ℚ) : ℚ :=
  match List.insertionSort (fun a b => b ≤ a) scores with
  | s0 :: s1 :: _ => 0.7 + min 0.25 ((s0 - s1) * 0.5)
  | _ => 0.85

/-- Decision record built by `_ml_route` (`model_router.py` lines 220-225);
the human-readable `reasoning` string (lines 206-214, 313-349) is
presentation-only and omitted. -/
structure RouteChoice where
  selected_model : String
  confidence : ℚ
  model_scores : List (String × ℚ)
deriving Repr, DecidableEq

/-- Embedding of `_ml_route` (`model_router.py` lines 168-225),
parameterized by the model registry it iterates (`self.models`). -/
def mlRoute (models : List ModelSpec) (request_type : String)
    (input_tokens output_tokens max_latency min_quality cost_budget : ℚ) : Option RouteChoice :=
  let required_quality := predictRequiredQuality request_type input_tokens
  let score := fun m => calculateMlModelScore m required_quality min_quality
    max_latency cost_budget input_tokens output_tokens
  match selectBest score models with
  | none => none
  | some best => some
      { selected_model := best.name
        confidence := mlConfidence (models.map score)
        model_scores := models.map (fun m => (m.name, pyRound 3 (score m))) }

theorem foldl_selectBest_spec (score : ModelSpec → ℚ) (l : List ModelSpec) :
    ∀ acc : ModelSpec,
      (l.foldl (fun a x => if score a < score x then x else a) acc = acc ∨
        l.foldl (fun a x => if score a < score x then x else a) acc ∈ l) ∧
      score acc ≤ score (l.foldl (fun a x => if score a < score x then x else a) acc) ∧
      ∀ m ∈ l, score m ≤ score (l.foldl (fun a x => if score a < score x then x else a) acc) := by
  induction l with
  | nil => intro acc; simp
  | cons x t ih =>
    intro acc
    have hstep : (x :: t).foldl (fun a x => if score a < score x then x else a) acc
        = t.foldl (fun a x => if score a < score x then x else a)
          (if score acc < score x then x else acc) := by
      simp [List.foldl_cons]
    obtain ⟨hmem, hacc, hall⟩ := ih (if score acc < score x then x else acc)
    rw [hstep]
    refine ⟨?_, ?_, ?_⟩
    · rcases hmem with hmem | hmem
      · rw [hmem]
        split_ifs with h
        · exact Or.inr (List.mem_cons_self _ _)
        · exact Or.inl rfl
      · exact Or.inr (List.mem_cons_of_mem _ hmem)
    · refine le_trans ?_ hacc
      split_ifs with h
      · exact le_of_lt h
      · exact le_refl _
    · intro m hm
      rcases List.mem_cons.mp hm with hm | hm
      · subst hm
        refine le_trans ?_ hacc
        split_ifs with h
        · exact le_refl _
        · exact le_of_not_lt h
      · exact hall m hm

/-- C8: the ML routing path is total: for every request context and every
non-empty model registry (in particular with `min_quality = 0.95` and no
candidate reaching 0.95), `_ml_route` returns a decision whose selected
model is an argmax-scored candidate of the registry; no candidate is
excluded and nothing is raised. -/
theorem mlRoute_total_and_argmax (models : List ModelSpec) (hne : models ≠ [])
    (request_type : String)
    (input_tokens output_tokens max_latency min_quality cost_budget : ℚ) :
    ∃ best ∈ models,
      Option.map RouteChoice.selected_model
          (mlRoute models request_type input_tokens output_tokens max_latency
            min_quality cost_budget) = some best.name ∧
      ∀ m ∈ models,
        calculateMlModelScore m (predictRequiredQuality request_type input_tokens)
            min_quality max_latency cost_budget input_tokens output_tokens ≤
          calculateMlModelScore best (predictRequiredQuality request_type input_tokens)
            min_quality max_latency cost_budget input_tokens output_tokens := by
  match models, hne with
  | x :: t, _ =>
    obtain ⟨hmem, hacc, hall⟩ := foldl_selectBest_spec
      (fun m => calculateMlModelScore m
        (predictRequiredQuality request_type input_tokens) min_quality max_latency
        cost_budget input_tokens output_tokens) t x
    refine ⟨t.foldl (fun a y =>
        if calculateMlModelScore a (predictRequiredQuality request_type input_tokens)
              min_quality max_latency cost_budget input_tokens output_tokens <
            calculateMlModelScore y (predictRequiredQuality request_type input_tokens)
              min_quality max_latency cost_budget input_tokens output_tokens
        then y else a) x, ?_, rfl, ?_⟩
    · rcases hmem with hmem | hmem
      · rw [hmem]; exact List.mem_cons_self _ _
      · exact List.mem_cons_of_mem _ hmem
    · intro m hm
      rcases List.mem_cons.mp hm with hm | hm
      · subst hm; exact hacc
      · exact hall m hm

/-- Witness for `mlRoute_total_and_argmax`: the concrete registry with
`min_quality = 0.95`, which no registry candidate reaches. -/
theorem mlRoute_total_and_argmax_witness :
    ∃ best ∈ registry,
      Option.map RouteChoice.selected_model
          (mlRoute registry "qa" 500 1000 2000 0.95 0.01) = some best.name ∧
      ∀ m ∈ registry,
        calculateMlModelScore m (predictRequiredQuality "qa" 500)
            0.95 2000 0.01 500 1000 ≤
          calculateMlModelScore best (predictRequiredQuality "qa" 500)
            0.95 2000 0.01 500 1000 :=
  mlRoute_total_and_argmax registry (by simp [registry]) "qa" 500 1000 2000 0.95 0.01

/-- C4 (amended): the per-candidate score of `_calculate_ml_model_score`,
and hence the routing decision of `_ml_route`, is independent of
`cost_budget`: the budget-compliance value is computed into the local
`cost_score` and never used, and only the cost-efficiency bonus
`1/(1+cost*100)` carries the 30% cost weight. -/
theorem score_and_route_independent_of_cost_budget
    (m : ModelSpec) (models : List ModelSpec) (request_type : String)
    (required_quality min_quality max_latency input_tokens output_tokens b1 b2 : ℚ) :
    calculateMlModelScore m required_quality min_quality max_latency b1
        input_tokens output_tokens =
      calculateMlModelScore m required_quality min_quality max_latency b2
        input_tokens output_tokens ∧
    mlRoute models request_type input_tokens output_tokens max_latency
        min_quality b1 =
      mlRoute models request_type input_tokens output_tokens max_latency
        min_quality b2 := by
  constructor
  · rfl
  · rfl

/-- C4 (counterexample): at the concrete request (type "qa", 500 input and
1000 output tokens, max latency 2000ms, min quality 0.7) the dead
budget-compliance value differs between budgets 10 and 0.01 (the flash
model's cost 0.3375 is within the first budget and far above the second),
yet both models' scores and the selected model are identical for the two
budgets: the claimed budget-dependence of the cost term is absent. -/
theorem cost_budget_counterexample :
    budgetComplianceScore (estimatedCost gemini15flash 500 1000) 10 = 1 ∧
    budgetComplianceScore (estimatedCost gemini15flash 500 1000) 0.01 = 0 ∧
    calculateMlModelScore gemini15flash (predictRequiredQuality "qa" 500)
        0.7 2000 10 500 1000 =
      calculateMlModelScore gemini15flash (predictRequiredQuality "qa" 500)
        0.7 2000 0.01 500 1000 ∧
    calculateMlModelScore gemini15pro (predictRequiredQuality "qa" 500)
        0.7 2000 10 500 1000 =
      calculateMlModelScore gemini15pro (predictRequiredQuality "qa" 500)
        0.7 2000 0.01 500 1000 ∧
    Option.map RouteChoice.selected_model
        (mlRoute registry "qa" 500 1000 2000 0.7 10) =
      Option.map RouteChoice.selected_model
        (mlRoute registry "qa" 500 1000 2000 0.7 0.01) := by
  refine ⟨?_, ?_, rfl, rfl, rfl⟩
  · norm_num [budgetComplianceScore, estimatedCost, gemini15flash]
  · norm_num [budgetComplianceScore, estimatedCost, gemini15flash, max_def]

end ModelRouter

namespace Attribution

/-- One entry of a per-dimension breakdown
(`app/anomaly_attribution_engine.py`, built at lines 269-284, simulated at
lines 300-317). -/
structure BreakdownItem where
  name : String
  baseline_value : ℚ
  analysis_value : ℚ
  change_pct : ℚ
  contribution_pct : ℚ
deriving Repr, DecidableEq

/-- A candidate cause collected into `all_changes`
(`_identify_primary_cause`, lines 341-374). -/
structure Candidate where
  dimension : String
  name : String
  change_pct : ℚ
  contribution_pct : ℚ
  baseline : ℚ
  analysis : ℚ
deriving Repr, DecidableEq

/-- The per-dimension significance filter of `_identify_primary_cause`
(lines 343-374): keep entries with `|change_pct| > 10`. -/
def significantChanges (dimension : String) (b : List BreakdownItem) : List Candidate :=
  b.filterMap fun i =>
    if 10 < |i.change_pct| then
      some { dimension := dimension, name := i.name, change_pct := i.change_pct,
             contribution_pct := i.contribution_pct, baseline := i.baseline_value,
             analysis := i.analysis_value }
    else none

/-- The primary-cause record returned by `_identify_primary_cause`. In the
unknown branch (lines 376-382) the source dict carries no contribution,
baseline or analysis keys, hence the `Option` fields. The human-readable
`description` string is presentation-only and omitted. -/
structure PrimaryCause where
  dimension : String
  name : String
  change_pct : ℚ
  contribution_pct : Option ℚ
  baseline_value : Option ℚ
  analysis_value : Option ℚ
deriving Repr, DecidableEq

/-- Python's `max(all_changes, key=lambda x: abs(x['change_pct']))`: the
first maximum in encounter order. -/
def maxByAbsChange (c : Candidate) (l : List Candidate) : Candidate :=
  l.foldl (fun acc x => if |acc.change_pct| < |x.change_pct| then x else acc) c

/-- Embedding of `_identify_primary_cause`
(`anomaly_attribution_engine.py` lines 332-400). -/
def identifyPrimaryCause (endpoint_breakdown model_breakdown request_type_breakdown :
    List BreakdownItem) (total_change_pct : ℚ) : PrimaryCause × ℚ :=
  let all_changes := significantChanges "endpoint" endpoint_breakdown
    ++ significantChanges "model" model_breakdown
    ++ significantChanges "request_type" request_type_breakdown
  match all_changes with
  | [] =>
    ({ dimension := "unknown", name := "unknown", change_pct := total_change_pct,
       contribution_pct := none, baseline_value := none, analysis_value := none }, 0.3)
  | c :: rest =>
    let primary := maxByAbsChange c rest
    let confidence := min 0.95 (0.5 + primary.contribution_pct / 100 * 0.3
      + min |primary.change_pct| 200 / 200 * 0.15)
    ({ dimension := primary.dimension, name := primary.name,
       change_pct := primary.change_pct,
       contribution_pct := some primary.contribution_pct,
       baseline_value := some primary.baseline,
       analysis_value := some primary.analysis }, confidence)

/-- A contributing factor (`_identify_contributing_factors`, lines
415-433); the `description` string is presentation-only and omitted. -/
structure Factor where
  dimension : String
  name : String
  change_pct : ℚ
  contribution_pct : ℚ
  confidence : ℚ
deriving Repr, DecidableEq

/-- The factor record built from a breakdown item, with the confidence
formula of lines 421 and 432. -/
def factorOfItem (dimension : String) (i : BreakdownItem) : Factor :=
  { dimension := dimension, name := i.name, change_pct := i.change_pct,
    contribution_pct := i.contribution_pct,
    confidence := min 0.8 (0.4 + i.contribution_pct / 100 * 0.4) }

/-- The per-item qualification test of lines 414 and 425: name differs from
the primary cause's and `|change_pct| > 15`. -/
def factorFromItem (dimension primary_name : String) (i : BreakdownItem) : Option Factor :=
  if i.name ≠ primary_name ∧ 15 < |i.change_pct| then some (factorOfItem dimension i)
  else none

/-- Embedding of `_identify_contributing_factors`
(`anomaly_attribution_engine.py` lines 402-435). The source iterates only
`endpoint_breakdown` and `model_breakdown`: the `request_type_breakdown`
parameter is accepted (line 406) but never read. Python's stable
`sorted(..., key=abs-change, reverse=True)[:3]` is embedded as the stable
`List.insertionSort` under the reversed order followed by `take 3`. -/
def identifyContributingFactors (endpoint_breakdown model_breakdown request_type_breakdown :
    List BreakdownItem) (primary_cause : PrimaryCause) : List Factor :=
  let factors := endpoint_breakdown.filterMap (factorFromItem "endpoint" primary_cause.name)
    ++ model_breakdown.filterMap (factorFromItem "model" primary_cause.name)
  (List.insertionSort (fun a b => |b.change_pct| ≤ |a.change_pct|) factors).take 3

/-- Embedding of `_calculate_total_confidence`
(`anomaly_attribution_engine.py` lines 437-456). -/
def calculateTotalConfidence (primary_confidence : ℚ) (contributing_factors : List Factor)
    (change_pct : ℚ) : ℚ :=
  let confidence := primary_confidence
  let confidence :=
    if contributing_factors ≠ [] then
      confidence * 0.7 +
        (contributing_factors.map Factor.confidence).sum / contributing_factors.length * 0.3
    else confidence
  if 50 < |change_pct| then min 0.95 (confidence + 0.05) else confidence

/-- The contributing-factors pipeline as claim C5 words it, drawing
candidates from all three dimension breakdowns. -/
def claimedFactorsAllDims (endpoint_breakdown model_breakdown request_type_breakdown :
    List BreakdownItem) (primary_cause : PrimaryCause) : List Factor :=
  let factors := endpoint_breakdown.filterMap (factorFromItem "endpoint" primary_cause.name)
    ++ model_breakdown.filterMap (factorFromItem "model" primary_cause.name)
    ++ request_type_breakdown.filterMap (factorFromItem "request_type" primary_cause.name)
  (List.insertionSort (fun a b => |b.change_pct| ≤ |a.change_pct|) factors).take 3

/-- The amended selection, reformulated in the claim's style: map the
scanned breakdowns (endpoint and model only) to factor records, filter by
the qualification test, sort by descending absolute change, truncate to 3. -/
def claimedFactorsTwoDims (endpoint_breakdown model_breakdown : List BreakdownItem)
    (primary_cause : PrimaryCause) : List Factor :=
  (List.insertionSort (fun a b => |b.change_pct| ≤ |a.change_pct|)
    ((endpoint_breakdown.map (factorOfItem "endpoint")
        ++ model_breakdown.map (factorOfItem "model")).filter
      (fun f => decide (f.name ≠ primary_cause.name ∧ 15 < |f.change_pct|)))).take 3

theorem filterMap_factor_eq_filter_map (dimension primary_name : String)
    (l : List BreakdownItem) :
    l.filterMap (factorFromItem dimension primary_name) =
      (l.map (factorOfItem dimension)).filter
        (fun f => decide (f.name ≠ primary_name ∧ 15 < |f.change_pct|)) := by
  induction l with
  | nil => rfl
  | cons i t ih =>
    by_cases h : i.name ≠ primary_name ∧ 15 < |i.change_pct|
    · have h1 : factorFromItem dimension primary_name i = some (factorOfItem dimension i) := by
        unfold factorFromItem; rw [if_pos h]
      have h2 : decide ((factorOfItem dimension i).name ≠ primary_name ∧
          15 < |(factorOfItem dimension i).change_pct|) = true := by
        rw [decide_eq_true_eq]; exact ⟨h.1, h.2⟩
      simp only [List.filterMap_cons, List.filter_cons, List.map_cons, h1, h2, ih]
      try simp
    · have h1 : factorFromItem dimension primary_name i = none := by
        unfold factorFromItem; rw [if_neg h]
      have h2 : decide ((factorOfItem dimension i).name ≠ primary_name ∧
          15 < |(factorOfItem dimension i).change_pct|) = false := by
        rw [decide_eq_false_iff_not]; exact h
      simp only [List.filterMap_cons, List.filter_cons, List.map_cons, h1, h2, ih]
      try simp

/-- C5 (amended): the contributing-factors list is computed from the
endpoint and model breakdowns only (the request-type breakdown argument is
ignored); among those, it is exactly the candidates whose name differs from
the primary cause's and whose absolute change exceeds 15, stably sorted by
descending absolute change and truncated to at most 3 entries, each with
confidence `min(0.8, 0.4 + contribution_pct/100*0.4)`. -/
theorem contributing_factors_characterization
    (eb mb rb rb' : List BreakdownItem) (p : PrimaryCause) :
    identifyContributingFactors eb mb rb p = identifyContributingFactors eb mb rb' p ∧
    identifyContributingFactors eb mb rb p = claimedFactorsTwoDims eb mb p ∧
    (identifyContributingFactors eb mb rb p).length ≤ 3 ∧
    List.Sorted (fun a b : Factor => |b.change_pct| ≤ |a.change_pct|)
      (identifyContributingFactors eb mb rb p) ∧
    ∀ f ∈ identifyContributingFactors eb mb rb p,
      f.name ≠ p.name ∧ 15 < |f.change_pct| ∧
      f.confidence = min 0.8 (0.4 + f.contribution_pct / 100 * 0.4) := by
  haveI htot : IsTotal Factor (fun a b => |b.change_pct| ≤ |a.change_pct|) :=
    ⟨fun a b => le_total _ _⟩
  haveI htr : IsTrans Factor (fun a b => |b.change_pct| ≤ |a.change_pct|) :=
    ⟨fun a b c h1 h2 => le_trans h2 h1⟩
  refine ⟨rfl, ?_, ?_, ?_, ?_⟩
  · simp only [identifyContributingFactors, claimedFactorsTwoDims]
    rw [filterMap_factor_eq_filter_map, filterMap_factor_eq_filter_map, List.filter_append]
  · exact List.length_take_le _ _
  · exact List.Pairwise.sublist (List.take_sublist _ _) (List.sorted_insertionSort _ _)
  · intro f hf
    have hf1 : f ∈ List.insertionSort (fun a b => |b.change_pct| ≤ |a.change_pct|)
        (eb.filterMap (factorFromItem "endpoint" p.name)
          ++ mb.filterMap (factorFromItem "model" p.name)) :=
      List.take_subset _ _ hf
    have hf2 : f ∈ eb.filterMap (factorFromItem "endpoint" p.name)
        ++ mb.filterMap (factorFromItem "model" p.name) :=
      (List.perm_insertionSort _ _).subset hf1
    have hsrc : ∃ dimension i, factorFromItem dimension p.name i = some f := by
      rcases List.mem_append.mp hf2 with h | h
      · obtain ⟨i, _, hi⟩ := List.mem_filterMap.mp h
        exact ⟨"endpoint", i, hi⟩
      · obtain ⟨i, _, hi⟩ := List.mem_filterMap.mp h
        exact ⟨"model", i, hi⟩
    obtain ⟨dimension, i, hi⟩ := hsrc
    unfold factorFromItem at hi
    split_ifs at hi with hcond
    injection hi with hfe
    subst hfe
    exact ⟨hcond.1, hcond.2, rfl⟩

/-- C5 (counterexample): with empty endpoint and model breakdowns and a
request-type breakdown containing a qualifying secondary candidate
("qa", change 33.3%, contribution 30%), the code returns no contributing
factors, while the claim requires the request-type candidate to appear
with confidence 0.52. -/
theorem contributing_factors_counterexample :
    identifyContributingFactors [] []
      [⟨"stress", 0.002, 0.008, 300, 50⟩, ⟨"qa", 0.003, 0.004, 33.3, 30⟩]
      (identifyPrimaryCause [] []
        [⟨"stress", 0.002, 0.008, 300, 50⟩, ⟨"qa", 0.003, 0.004, 33.3, 30⟩] 300).1 = [] ∧
    claimedFactorsAllDims [] []
      [⟨"stress", 0.002, 0.008, 300, 50⟩, ⟨"qa", 0.003, 0.004, 33.3, 30⟩]
      (identifyPrimaryCause [] []
        [⟨"stress", 0.002, 0.008, 300, 50⟩, ⟨"qa", 0.003, 0.004, 33.3, 30⟩] 300).1 =
      [⟨"request_type", "qa", 33.3, 30, 0.52⟩] ∧
    ([] : List Factor) ≠ [⟨"request_type", "qa", 33.3, 30, 0.52⟩] := by
  refine ⟨rfl, ?_, by simp⟩
  norm_num [identifyPrimaryCause, significantChanges, maxByAbsChange,
    claimedFactorsAllDims, factorFromItem, factorOfItem, List.filterMap_cons,
    List.insertionSort, List.orderedInsert, min_def, max_def, abs,
    (show ¬("qa":String) = "stress" by decide)]

theorem maxByAbsChange_mem (c : Candidate) (l : List Candidate) :
    maxByAbsChange c l ∈ c :: l := by
  unfold maxByAbsChange
  induction l generalizing c with
  | nil => simp
  | cons x t ih =>
    simp only [List.foldl_cons]
    have h := ih (if |c.change_pct| < |x.change_pct| then x else c)
    rcases List.mem_cons.mp h with h | h
    · rw [h]
      split_ifs
      · exact List.mem_cons_of_mem _ (List.mem_cons_self _ _)
      · exact List.mem_cons_self _ _
    · exact List.mem_cons_of_mem _ (List.mem_cons_of_mem _ h)

theorem significantChanges_contribution {dimension : String} {b : List BreakdownItem}
    (hb : ∀ i ∈ b, 0 ≤ i.contribution_pct) :
    ∀ x ∈ significantChanges dimension b, 0 ≤ x.contribution_pct := by
  intro x hx
  obtain ⟨i, hib, hi⟩ := List.mem_filterMap.mp hx
  split_ifs at hi
  injection hi with hie
  subst hie
  exact hb i hib

theorem primary_confidence_bounds (eb mb rb : List BreakdownItem) (tcp : ℚ)
    (hc : ∀ i ∈ eb ++ mb ++ rb, 0 ≤ i.contribution_pct) :
    0 ≤ (identifyPrimaryCause eb mb rb tcp).2 ∧
      (identifyPrimaryCause eb mb rb tcp).2 ≤ 0.95 := by
  have heb : ∀ i ∈ eb, 0 ≤ i.contribution_pct := fun i hi => hc i (by simp [hi])
  have hmb : ∀ i ∈ mb, 0 ≤ i.contribution_pct := fun i hi => hc i (by simp [hi])
  have hrb : ∀ i ∈ rb, 0 ≤ i.contribution_pct := fun i hi => hc i (by simp [hi])
  have hall : ∀ x ∈ significantChanges "endpoint" eb ++ significantChanges "model" mb
      ++ significantChanges "request_type" rb, 0 ≤ x.contribution_pct := by
    intro x hx
    rcases List.mem_append.mp hx with h | h
    · rcases List.mem_append.mp h with h | h
      · exact significantChanges_contribution heb x h
      · exact significantChanges_contribution hmb x h
    · exact significantChanges_contribution hrb x h
  rcases hsplit : significantChanges "endpoint" eb ++ significantChanges "model" mb
      ++ significantChanges "request_type" rb with _ | ⟨c, rest⟩
  · rw [List.append_assoc] at hsplit
    simp only [identifyPrimaryCause, List.append_assoc, hsplit]
    norm_num
  · rw [List.append_assoc] at hsplit
    have hmem : maxByAbsChange c rest ∈ c :: rest := maxByAbsChange_mem c rest
    have hcontrib : 0 ≤ (maxByAbsChange c rest).contribution_pct := by
      apply hall
      rw [List.append_assoc, hsplit]
      exact hmem
    simp only [identifyPrimaryCause, List.append_assoc, hsplit]
    constructor
    · apply le_min (by norm_num)
      have habs : (0:ℚ) ≤ min |(maxByAbsChange c rest).change_pct| 200 :=
        le_min (abs_nonneg _) (by norm_num)
      have h1 : 0 ≤ (maxByAbsChange c rest).contribution_pct / 100 * 0.3 :=
        mul_nonneg (div_nonneg hcontrib (by norm_num)) (by norm_num)
      have h2 : 0 ≤ min |(maxByAbsChange c rest).change_pct| 200 / 200 * 0.15 :=
        mul_nonneg (div_nonneg habs (by norm_num)) (by norm_num)
      linarith
    · exact min_le_left _ _

theorem factor_confidence_bounds (eb mb rb : List BreakdownItem) (p : PrimaryCause)
    (hc : ∀ i ∈ eb ++ mb, 0 ≤ i.contribution_pct) :
    ∀ f ∈ identifyContributingFactors eb mb rb p,
      0.4 ≤ f.confidence ∧ f.confidence ≤ 0.8 := by
  intro f hf
  have hf1 : f ∈ List.insertionSort (fun a b => |b.change_pct| ≤ |a.change_pct|)
      (eb.filterMap (factorFromItem "endpoint" p.name)
        ++ mb.filterMap (factorFromItem "model" p.name)) :=
    List.take_subset _ _ hf
  have hf2 : f ∈ eb.filterMap (factorFromItem "endpoint" p.name)
      ++ mb.filterMap (factorFromItem "model" p.name) :=
    (List.perm_insertionSort _ _).subset hf1
  have hsrc : ∃ dimension i, (i ∈ eb ∨ i ∈ mb) ∧
      factorFromItem dimension p.name i = some f := by
    rcases List.mem_append.mp hf2 with h | h
    · obtain ⟨i, hib, hi⟩ := List.mem_filterMap.mp h
      exact ⟨"endpoint", i, Or.inl hib, hi⟩
    · obtain ⟨i, hib, hi⟩ := List.mem_filterMap.mp h
      exact ⟨"model", i, Or.inr hib, hi⟩
  obtain ⟨dimension, i, him, hi⟩ := hsrc
  have hco : 0 ≤ i.contribution_pct := by
    rcases him with h | h
    · exact hc i (by simp [h])
    · exact hc i (by simp [h])
  unfold factorFromItem at hi
  split_ifs at hi
  injection hi with hfe
  subst hfe
  have hnn : 0 ≤ i.contribution_pct / 100 * 0.4 :=
    mul_nonneg (div_nonneg hco (by norm_num)) (by norm_num)
  exact ⟨le_min (by norm_num) (by linarith), min_le_left _ _⟩

theorem list_avg_bounds {l : List ℚ} (hne : l ≠ []) {a b : ℚ}
    (h : ∀ x ∈ l, a ≤ x ∧ x ≤ b) :
    a ≤ l.sum / l.length ∧ l.sum / l.length ≤ b := by
  have hlen : 0 < l.length := List.length_pos.mpr hne
  have hlenq : (0:ℚ) < (l.length : ℚ) := by exact_mod_cast hlen
  have hsum_ub : l.sum ≤ l.length • b := List.sum_le_card_nsmul l b (fun x hx => (h x hx).2)
  have hsum_lb : l.length • a ≤ l.sum := List.card_nsmul_le_sum l a (fun x hx => (h x hx).1)
  rw [nsmul_eq_mul] at hsum_ub hsum_lb
  constructor
  · rw [le_div_iff₀ hlenq]; linarith
  · rw [div_le_iff₀ hlenq]; linarith

/-- C6: for breakdowns whose contribution percentages are non-negative, the
attribution's total confidence always lies in [0, 0.95]: the primary
confidence is capped at 0.95 (0.3 in the unknown branch), the blend
`0.7*primary + 0.3*mean(factor confidences)` with factor confidences in
[0.4, 0.8] cannot exceed 0.905, and the +0.05 significance boost is capped
at 0.95. -/
theorem total_confidence_bounds (eb mb rb : List BreakdownItem) (tcp ch : ℚ)
    (hc : ∀ i ∈ eb ++ mb ++ rb, 0 ≤ i.contribution_pct) :
    0 ≤ calculateTotalConfidence (identifyPrimaryCause eb mb rb tcp).2
        (identifyContributingFactors eb mb rb (identifyPrimaryCause eb mb rb tcp).1) ch ∧
      calculateTotalConfidence (identifyPrimaryCause eb mb rb tcp).2
        (identifyContributingFactors eb mb rb (identifyPrimaryCause eb mb rb tcp).1) ch
        ≤ 0.95 := by
  obtain ⟨hp0, hp95⟩ := primary_confidence_bounds eb mb rb tcp hc
  have hfb := factor_confidence_bounds eb mb rb (identifyPrimaryCause eb mb rb tcp).1
    (fun i hi => hc i (by simp only [List.mem_append] at hi ⊢; tauto))
  set pc := (identifyPrimaryCause eb mb rb tcp).2
  set fs := identifyContributingFactors eb mb rb (identifyPrimaryCause eb mb rb tcp).1
  have hblend : fs ≠ [] →
      0.12 ≤ (fs.map Factor.confidence).sum / (fs.length : ℚ) * 0.3 ∧
        (fs.map Factor.confidence).sum / (fs.length : ℚ) * 0.3 ≤ 0.24 := by
    intro hne
    have hmap : ∀ x ∈ fs.map Factor.confidence, 0.4 ≤ x ∧ x ≤ 0.8 := by
      intro x hx
      obtain ⟨f, hfmem, rfl⟩ := List.mem_map.mp hx
      exact hfb f hfmem
    have hmne : fs.map Factor.confidence ≠ [] := by simpa using hne
    obtain ⟨ha, hb⟩ := list_avg_bounds hmne hmap
    rw [List.length_map] at ha hb
    constructor <;> linarith
  simp only [calculateTotalConfidence]
  split_ifs with h1 h2 h3
  · obtain ⟨hb1, hb2⟩ := hblend h2
    exact ⟨le_min (by norm_num) (by linarith), min_le_left _ _⟩
  · exact ⟨le_min (by norm_num) (by linarith), min_le_left _ _⟩
  · obtain ⟨hb1, hb2⟩ := hblend h3
    exact ⟨by linarith, by linarith⟩
  · exact ⟨hp0, hp95⟩

/-- Witness for `total_confidence_bounds` on the simulated breakdowns of
`_simulate_breakdown` with the simulated cost change of 87.5%. -/
theorem total_confidence_bounds_witness :
    0 ≤ calculateTotalConfidence
        (identifyPrimaryCause
          [⟨"/stress", 0.002, 0.008, 300, 45⟩, ⟨"/qa", 0.003, 0.005, 66.7, 30⟩,
            ⟨"/reason", 0.002, 0.002, 0, 15⟩]
          [⟨"gemini-2.5-flash", 0.004, 0.010, 150, 60⟩, ⟨"gemini-1.5-pro", 0.003, 0.005, 66.7, 40⟩]
          [⟨"stress", 0.002, 0.008, 300, 50⟩, ⟨"qa", 0.003, 0.004, 33.3, 30⟩] 87.5).2
        (identifyContributingFactors
          [⟨"/stress", 0.002, 0.008, 300, 45⟩, ⟨"/qa", 0.003, 0.005, 66.7, 30⟩,
            ⟨"/reason", 0.002, 0.002, 0, 15⟩]
          [⟨"gemini-2.5-flash", 0.004, 0.010, 150, 60⟩, ⟨"gemini-1.5-pro", 0.003, 0.005, 66.7, 40⟩]
          [⟨"stress", 0.002, 0.008, 300, 50⟩, ⟨"qa", 0.003, 0.004, 33.3, 30⟩]
          (identifyPrimaryCause
            [⟨"/stress", 0.002, 0.008, 300, 45⟩, ⟨"/qa", 0.003, 0.005, 66.7, 30⟩,
              ⟨"/reason", 0.002, 0.002, 0, 15⟩]
            [⟨"gemini-2.5-flash", 0.004, 0.010, 150, 60⟩, ⟨"gemini-1.5-pro", 0.003, 0.005, 66.7, 40⟩]
            [⟨"stress", 0.002, 0.008, 300, 50⟩, ⟨"qa", 0.003, 0.004, 33.3, 30⟩] 87.5).1) 87.5 ∧
      calculateTotalConfidence
        (identifyPrimaryCause
          [⟨"/stress", 0.002, 0.008, 300, 45⟩, ⟨"/qa", 0.003, 0.005, 66.7, 30⟩,
            ⟨"/reason", 0.002, 0.002, 0, 15⟩]
          [⟨"gemini-2.5-flash", 0.004, 0.010, 150, 60⟩, ⟨"gemini-1.5-pro", 0.003, 0.005, 66.7, 40⟩]
          [⟨"stress", 0.002, 0.008, 300, 50⟩, ⟨"qa", 0.003, 0.004, 33.3, 30⟩] 87.5).2
        (identifyContributingFactors
          [⟨"/stress", 0.002, 0.008, 300, 45⟩, ⟨"/qa", 0.003, 0.005, 66.7, 30⟩,
            ⟨"/reason", 0.002, 0.002, 0, 15⟩]
          [⟨"gemini-2.5-flash", 0.004, 0.010, 150, 60⟩, ⟨"gemini-1.5-pro", 0.003, 0.005, 66.7, 40⟩]
          [⟨"stress", 0.002, 0.008, 300, 50⟩, ⟨"qa", 0.003, 0.004, 33.3, 30⟩]
          (identifyPrimaryCause
            [⟨"/stress", 0.002, 0.008, 300, 45⟩, ⟨"/qa", 0.003, 0.005, 66.7, 30⟩,
              ⟨"/reason", 0.002, 0.002, 0, 15⟩]
            [⟨"gemini-2.5-flash", 0.004, 0.010, 150, 60⟩, ⟨"gemini-1.5-pro", 0.003, 0.005, 66.7, 40⟩]
            [⟨"stress", 0.002, 0.008, 300, 50⟩, ⟨"qa", 0.003, 0.004, 33.3, 30⟩] 87.5).1) 87.5
        ≤ 0.95 :=
  total_confidence_bounds
    [⟨"/stress", 0.002, 0.008, 300, 45⟩, ⟨"/qa", 0.003, 0.005, 66.7, 30⟩,
      ⟨"/reason", 0.002, 0.002, 0, 15⟩]
    [⟨"gemini-2.5-flash", 0.004, 0.010, 150, 60⟩, ⟨"gemini-1.5-pro", 0.003, 0.005, 66.7, 40⟩]
    [⟨"stress", 0.002, 0.008, 300, 50⟩, ⟨"qa", 0.003, 0.004, 33.3, 30⟩] 87.5 87.5
    (by intro i hi; fin_cases hi <;> norm_num)

end Attribution

namespace CostPredictor

/-- Mutable predictor state relevant to training and prediction
(`app/ml_cost_predictor.py` lines 40-75): `enabled` is set at construction
from ML-library availability, `is_trained` after a successful `train` or a
model load. The sklearn regressor and scaler objects are external
collaborators, abstracted away from this state. -/
structure PredictorState where
  enabled : Bool
  is_trained : Bool
deriving Repr, DecidableEq

/-- One historical training sample, with the feature fields extracted at
`ml_cost_predictor.py` lines 100-112. -/
structure CostSample where
  hour_of_day : ℚ
  day_of_week : ℚ
  request_count : ℚ
  avg_input_tokens : ℚ
  avg_output_tokens : ℚ
  error_rate : ℚ
  retry_rate : ℚ
  avg_latency_ms : ℚ
  cost_usd : ℚ
deriving Repr, DecidableEq

/-- Result of `train` (`ml_cost_predictor.py` lines 94-145): the explicit
insufficient-data error dict, or the trained-stats dict. -/
inductive TrainResult where
  | insufficient (msg : String)
  | trained (mae r2 : ℚ) (training_samples test_samples : ℕ)
deriving Repr, DecidableEq

/-- Embedding of `CostPredictor.train` (`ml_cost_predictor.py` lines
77-145). The sklearn train/test split, scaling, fit and evaluation (lines
117-132) are external collaborators, abstracted as the `fit` oracle that
produces (mae, r2, training samples, test samples); the guard at line 94
and the `is_trained` transition at line 134 are explicit. -/
def train (fit : List CostSample → ℚ × ℚ × ℕ × ℕ) (st : PredictorState)
    (historical_data : List CostSample) : PredictorState × TrainResult :=
  if st.enabled = false ∨ historical_data.length < 10 then
    (st, .insufficient "Not enough data to train model")
  else
    let stats := fit historical_data
    ({ st with is_trained := true },
      .trained stats.1 stats.2.1 stats.2.2.1 stats.2.2.2)

/-- C9: whenever fewer than 10 training samples are supplied (or the
predictor is disabled), `train` returns the explicit insufficient-data
error result, raises nothing, and leaves the predictor's trained state
unchanged. -/
theorem train_insufficient_data (fit : List CostSample → ℚ × ℚ × ℕ × ℕ)
    (st : PredictorState) (historical_data : List CostSample)
    (h : historical_data.length < 10 ∨ st.enabled = false) :
    train fit st historical_data =
      (st, .insufficient "Not enough data to train model") ∧
    (train fit st historical_data).1.is_trained = st.is_trained := by
  unfold train
  rw [if_pos (by tauto : st.enabled = false ∨ historical_data.length < 10)]
  exact ⟨rfl, rfl⟩

/-- Witness for `train_insufficient_data`: an enabled untrained predictor
given three samples. -/
theorem train_insufficient_data_witness :
    train (fun _ => (0, 0, 0, 0)) ⟨true, false⟩
        [⟨12, 0, 100, 500, 1000, 0.02, 0.05, 800, 0.5⟩,
         ⟨13, 0, 110, 500, 1000, 0.02, 0.05, 800, 0.6⟩,
         ⟨14, 0, 120, 500, 1000, 0.02, 0.05, 800, 0.7⟩] =
      (⟨true, false⟩, .insufficient "Not enough data to train model") ∧
    (train (fun _ => (0, 0, 0, 0)) ⟨true, false⟩
        [⟨12, 0, 100, 500, 1000, 0.02, 0.05, 800, 0.5⟩,
         ⟨13, 0, 110, 500, 1000, 0.02, 0.05, 800, 0.6⟩,
         ⟨14, 0, 120, 500, 1000, 0.02, 0.05, 800, 0.7⟩]).1.is_trained = false :=
  train_insufficient_data (fun _ => (0, 0, 0, 0)) ⟨true, false⟩
    [⟨12, 0, 100, 500, 1000, 0.02, 0.05, 800, 0.5⟩,
     ⟨13, 0, 110, 500, 1000, 0.02, 0.05, 800, 0.6⟩,
     ⟨14, 0, 120, 500, 1000, 0.02, 0.05, 800, 0.7⟩]
    (Or.inl (by norm_num))

/-- Current-metrics dict consumed by `predict_next_24h`
(`ml_cost_predictor.py` lines 182-204, 284-296). -/
structure CostMetrics where
  request_count : ℚ
  avg_input_tokens : ℚ
  avg_output_tokens : ℚ
  error_rate : ℚ
  retry_rate : ℚ
  avg_latency_ms : ℚ
  cost_per_request : ℚ
deriving Repr, DecidableEq

/-- Feature vector for one forecast hour (`ml_cost_predictor.py` lines
174-191). -/
structure HourFeatures where
  hour : ℕ
  day : ℕ
  request_count : ℚ
  avg_input_tokens : ℚ
  avg_output_tokens : ℚ
  error_rate : ℚ
  retry_rate : ℚ
  avg_latency_ms : ℚ
deriving Repr, DecidableEq

/-- One `hourly_breakdown` entry (lines 199-204): it records the RAW model
prediction `pred`, not the clamp `max(0, pred)` used for the summed total. -/
structure HourDetail where
  hour : ℕ
  day : ℕ
  predicted_cost : ℚ
  request_count : ℚ
deriving Repr, DecidableEq

/-- The feature builder of the forecast loop (lines 174-191): hour and day
wrap around the clock, and request_count grows 1% per hour offset. -/
def hourFeatures (current_metrics : CostMetrics) (current_hour current_day hour_offset : ℕ) :
    HourFeatures :=
  { hour := (current_hour + hour_offset) % 24
    day := if hour_offset < 24 - current_hour then current_day else (current_day + 1) % 7
    request_count := current_metrics.request_count * (1 + (hour_offset : ℚ) * 0.01)
    avg_input_tokens := current_metrics.avg_input_tokens
    avg_output_tokens := current_metrics.avg_output_tokens
    error_rate := current_metrics.error_rate
    retry_rate := current_metrics.retry_rate
    avg_latency_ms := current_metrics.avg_latency_ms }

/-- The untrained/disabled fallback `_simple_prediction`
(`ml_cost_predictor.py` lines 284-296). -/
structure SimplePrediction where
  predicted_cost_24h : ℚ
  budget_risk : String
deriving Repr, DecidableEq

def simplePrediction (current_metrics : CostMetrics) (budget : ℚ) : SimplePrediction :=
  let predicted_24h := current_metrics.cost_per_request * current_metrics.request_count * 24
  { predicted_cost_24h := predicted_24h
    budget_risk := if budget * 0.9 < predicted_24h then "high" else "medium" }

/-- The trained-path result dict of `predict_next_24h` (lines 228-239).
The advisory fields (`recommendations`, `peak_hour`, `ml_model`,
`model_accuracy`) are presentation-only and omitted. -/
structure Prediction24h where
  predicted_cost_24h : ℚ
  current_budget : ℚ
  budget_utilization : ℚ
  budget_risk : String
  confidence : ℚ
  hourly_breakdown : List HourDetail
deriving Repr, DecidableEq

/-- The trained-path body of `predict_next_24h` (lines 168-239): 24
synthetic future hours, each predicted by the regression model (abstracted
as the `predictFn` oracle over the scaled features), clamped into the
summed series but recorded raw in `hourly_breakdown`. -/
def predictNext24hTrained (predictFn : HourFeatures → ℚ)
    (current_hour current_day : ℕ) (current_metrics : CostMetrics)
    (daily_budget : ℚ) : Prediction24h :=
  let preds := (List.range 24).map fun k =>
    max 0 (predictFn (hourFeatures current_metrics current_hour current_day k))
  let hourly_details : List HourDetail := (List.range 24).map fun k =>
    { hour := (hourFeatures current_metrics current_hour current_day k).hour
      day := (hourFeatures current_metrics current_hour current_day k).day
      predicted_cost := predictFn (hourFeatures current_metrics current_hour current_day k)
      request_count := (hourFeatures current_metrics current_hour current_day k).request_count }
  let total_predicted := preds.sum
  let budget_percentage :=
    if 0 < daily_budget then total_predicted / daily_budget * 100 else 0
  let risk_level :=
    if 100 < budget_percentage then "critical"
    else if 90 < budget_percentage then "high"
    else if 70 < budget_percentage then "medium"
    else "low"
  { predicted_cost_24h := pyRound 4 total_predicted
    current_budget := daily_budget
    budget_utilization := pyRound 1 budget_percentage
    budget_risk := risk_level
    confidence := 0.85
    hourly_breakdown := hourly_details }

/-- Embedding of `predict_next_24h` (`ml_cost_predictor.py` lines 147-239):
the untrained/disabled guard (line 162) yields the tagged error result with
the simple fallback, otherwise the trained-path result. -/
def predictNext24h (predictFn : HourFeatures → ℚ) (st : PredictorState)
    (current_hour current_day : ℕ) (current_metrics : CostMetrics)
    (daily_budget : ℚ) : Except SimplePrediction Prediction24h :=
  if st.enabled = false ∨ st.is_trained = false then
    .error (simplePrediction current_metrics daily_budget)
  else
    .ok (predictNext24hTrained predictFn current_hour current_day current_metrics daily_budget)

end CostPredictor

theorem roundHalfEven_ge_sub_half (z : ℚ) : z - 1/2 ≤ (roundHalfEven z : ℚ) := by
  have h1 : (⌊z⌋ : ℚ) ≤ z := Int.floor_le z
  have h2 : z < (⌊z⌋ : ℚ) + 1 := Int.lt_floor_add_one z
  unfold roundHalfEven
  rw [rat_floor_eq_floor]
  split_ifs with ha hb hc <;> push_cast <;> linarith

theorem sub_le_pyRound (d : ℕ) (x : ℚ) : x - 1 / (2 * 10 ^ d) ≤ pyRound d x := by
  have hp : (0:ℚ) < 10 ^ d := by positivity
  have h := roundHalfEven_ge_sub_half (x * 10 ^ d)
  unfold pyRound
  rw [le_div_iff₀ hp]
  have he : (x - 1 / (2 * 10 ^ d)) * 10 ^ d = x * 10 ^ d - 1/2 := by
    field_simp
    ring
  rw [he]
  exact h

namespace CostPredictor

/-- C10 (amended): on the trained path, each hourly prediction is clamped
to `max(0, pred)` before summing while `hourly_breakdown` records the raw
prediction; hence whenever some hourly prediction is negative, the
unrounded clamped total strictly exceeds the sum of the reported
`predicted_cost` values, and the returned `predicted_cost_24h` (that total
rounded to 4 decimals) still exceeds the reported sum minus 0.00005. -/
theorem predicted_cost_exceeds_breakdown_sum
    (predictFn : HourFeatures → ℚ) (st : PredictorState)
    (current_hour current_day : ℕ) (m : CostMetrics) (daily_budget : ℚ)
    (hen : st.enabled = true) (htr : st.is_trained = true)
    (hneg : ∃ k < 24, predictFn (hourFeatures m current_hour current_day k) < 0) :
    predictNext24h predictFn st current_hour current_day m daily_budget =
      .ok (predictNext24hTrained predictFn current_hour current_day m daily_budget) ∧
    ((predictNext24hTrained predictFn current_hour current_day m
        daily_budget).hourly_breakdown.map HourDetail.predicted_cost).sum <
      ((List.range 24).map fun k =>
        max 0 (predictFn (hourFeatures m current_hour current_day k))).sum ∧
    ((predictNext24hTrained predictFn current_hour current_day m
        daily_budget).hourly_breakdown.map HourDetail.predicted_cost).sum - 0.00005 <
      (predictNext24hTrained predictFn current_hour current_day m
        daily_budget).predicted_cost_24h := by
  have hcond : ¬ (st.enabled = false ∨ st.is_trained = false) := by simp [hen, htr]
  have hmap : (predictNext24hTrained predictFn current_hour current_day m
      daily_budget).hourly_breakdown.map HourDetail.predicted_cost
      = (List.range 24).map fun k => predictFn (hourFeatures m current_hour current_day k) := by
    simp only [predictNext24hTrained]
    rw [List.map_map]
    rfl
  obtain ⟨k0, hk0, hk0neg⟩ := hneg
  have hsums : ((List.range 24).map fun k =>
        predictFn (hourFeatures m current_hour current_day k)).sum <
      ((List.range 24).map fun k =>
        max 0 (predictFn (hourFeatures m current_hour current_day k))).sum := by
    apply List.sum_lt_sum
    · intro k _
      exact le_max_right _ _
    · exact ⟨k0, List.mem_range.mpr hk0, lt_of_lt_of_le hk0neg (le_max_left 0 _)⟩
  have hfield : (predictNext24hTrained predictFn current_hour current_day m
      daily_budget).predicted_cost_24h
      = pyRound 4 ((List.range 24).map fun k =>
          max 0 (predictFn (hourFeatures m current_hour current_day k))).sum := by
    simp only [predictNext24hTrained]
  refine ⟨?_, ?_, ?_⟩
  · simp only [predictNext24h]
    rw [if_neg hcond]
  · rw [hmap]
    exact hsums
  · rw [hmap, hfield]
    have h := sub_le_pyRound 4 (((List.range 24).map fun k =>
      max 0 (predictFn (hourFeatures m current_hour current_day k))).sum)
    norm_num at h
    linarith

/-- Witness for `predicted_cost_exceeds_breakdown_sum`: an oracle whose
hour-0 prediction is negative. -/
theorem predicted_cost_exceeds_breakdown_sum_witness :
    predictNext24h (fun f => (f.hour : ℚ) - 1) ⟨true, true⟩ 0 0
        ⟨100, 500, 1000, 0.02, 0.05, 800, 0.001⟩ 10 =
      .ok (predictNext24hTrained (fun f => (f.hour : ℚ) - 1) 0 0
        ⟨100, 500, 1000, 0.02, 0.05, 800, 0.001⟩ 10) ∧
    ((predictNext24hTrained (fun f => (f.hour : ℚ) - 1) 0 0
        ⟨100, 500, 1000, 0.02, 0.05, 800, 0.001⟩ 10).hourly_breakdown.map
        HourDetail.predicted_cost).sum <
      ((List.range 24).map fun k =>
        max 0 ((fun f => (f.hour : ℚ) - 1)
          (hourFeatures ⟨100, 500, 1000, 0.02, 0.05, 800, 0.001⟩ 0 0 k))).sum ∧
    ((predictNext24hTrained (fun f => (f.hour : ℚ) - 1) 0 0
        ⟨100, 500, 1000, 0.02, 0.05, 800, 0.001⟩ 10).hourly_breakdown.map
        HourDetail.predicted_cost).sum - 0.00005 <
      (predictNext24hTrained (fun f => (f.hour : ℚ) - 1) 0 0
        ⟨100, 500, 1000, 0.02, 0.05, 800, 0.001⟩ 10).predicted_cost_24h :=
  predicted_cost_exceeds_breakdown_sum (fun f => (f.hour : ℚ) - 1) ⟨true, true⟩ 0 0
    ⟨100, 500, 1000, 0.02, 0.05, 800, 0.001⟩ 10 rfl rfl
    ⟨0, by norm_num, by norm_num [hourFeatures]⟩

/-- C10 (counterexample): with the concrete oracle predicting -0.000000001
at hour 0 and 0.000002 at every other hour, hour 0's reported
predicted_cost is negative, yet the returned `predicted_cost_24h` (0.0,
after rounding the clamped total 0.000046 to 4 decimals) is strictly LESS
than the sum of the reported hourly predicted_cost values (0.000045999):
rounding can invert the claimed strict inequality. -/
theorem predicted_cost_rounding_counterexample :
    (fun f : HourFeatures => if f.hour = 0 then -(1/1000000000 : ℚ) else 1/500000)
      (hourFeatures ⟨0, 0, 0, 0, 0, 0, 0⟩ 0 0 0) < 0 ∧
    (predictNext24hTrained
        (fun f => if f.hour = 0 then -(1/1000000000 : ℚ) else 1/500000) 0 0
        ⟨0, 0, 0, 0, 0, 0, 0⟩ 10).predicted_cost_24h <
      ((predictNext24hTrained
          (fun f => if f.hour = 0 then -(1/1000000000 : ℚ) else 1/500000) 0 0
          ⟨0, 0, 0, 0, 0, 0, 0⟩ 10).hourly_breakdown.map
        HourDetail.predicted_cost).sum := by
  have hr : List.range 24 =
      [0, 1, 2, 3, 4, 5, 6, 7, 8, 9, 10, 11, 12, 13, 14, 15, 16, 17, 18, 19, 20, 21, 22, 23] := rfl
  constructor
  · norm_num [hourFeatures]
  · norm_num [predictNext24hTrained, hourFeatures, hr, pyRound, roundHalfEven,
      rat_floor_eq_floor, max_def, min_def]

end CostPredictor

namespace MLInsights

/-- A recommendation entry as consumed by the prioritizer
(`app/ml_insights.py` lines 227-237): the sort key reads `priority` and
`ml_confidence`; the remaining payload (title, description, category, ...)
is collapsed into one opaque field. -/
structure Recommendation where
  priority : String
  ml_confidence : ℚ
  payload : String
deriving Repr, DecidableEq

/-- The fields of a successful cost prediction that the aggregator reads
(`ml_insights.py` lines 54-64, 107, 113). -/
structure CostPredictionPayload where
  budget_risk : String
  predicted_cost_24h : ℚ
  budget_utilization : ℚ
  confidence : ℚ
  ml_model : String
  recommendations : List Recommendation
deriving Repr, DecidableEq

/-- Outcome of `predict_next_24h` as seen by the aggregator: either the
tagged error dict (which carries no `ml_model`/`confidence` keys) via
`cost_prediction.get('error')`, or the payload. -/
inductive CostPredictionOutcome where
  | errorResult
  | payload (p : CostPredictionPayload)
deriving Repr, DecidableEq

/-- The fields of a successful quality prediction that the aggregator
reads (`ml_insights.py` lines 68-79, 108, 114). -/
structure QualityPredictionPayload where
  degradation_risk : String
  trend : String
  predicted_quality_24h : ℚ
  current_quality : ℚ
  confidence : ℚ
  ml_model : String
  recommendations : List Recommendation
deriving Repr, DecidableEq

/-- Outcome of `predict_quality_degradation` as seen by the aggregator. -/
inductive QualityPredictionOutcome where
  | errorResult
  | payload (p : QualityPredictionPayload)
deriving Repr, DecidableEq

/-- One Watchdog insight dict (`ml_insights.py` lines 83-93). -/
structure WatchdogInsight where
  priority : String
  title : String
  confidence : ℚ
  ml_model : String
deriving Repr, DecidableEq

/-- The routing fields read by `_get_routing_recommendation`
(`ml_insights.py` lines 181-197). -/
structure RoutingOutcome where
  selected_model : String
  cost_savings_percentage : ℚ
  cost_savings : ℚ
  ml_confidence : ℚ
  expected_quality : ℚ
  estimated_latency_ms : ℚ
deriving Repr, DecidableEq

/-- Embedding of `_get_ml_cost_prediction` (`ml_insights.py` lines
119-142): the predictor call is wrapped in try/except, any exception is
logged and yields None. The fallible call itself is the `Except`-valued
argument. -/
def getMlCostPrediction (costCall : Except String CostPredictionOutcome) :
    Option CostPredictionOutcome :=
  match costCall with
  | .ok r => some r
  | .error _ => none

/-- Embedding of `_get_ml_quality_prediction` (`ml_insights.py` lines
144-166): same try/except-to-None containment. -/
def getMlQualityPrediction (qualityCall : Except String QualityPredictionOutcome) :
    Option QualityPredictionOutcome :=
  match qualityCall with
  | .ok r => some r
  | .error _ => none

/-- Embedding of `_get_routing_recommendation` (`ml_insights.py` lines
168-203): exceptions are contained to None; a successful routing yields a
recommendation only when the savings percentage exceeds 10. -/
def getRoutingRecommendation (routerCall : Except String RoutingOutcome) :
    Option Recommendation :=
  match routerCall with
  | .error _ => none
  | .ok routing =>
    if 10 < routing.cost_savings_percentage then
      some { priority := "high", ml_confidence := routing.ml_confidence,
             payload := "cost_optimization" }
    else none

/-- Modelled from the spec: `watchdog_integration.py` (the
`WatchdogIntegration` class whose `get_ml_recommendations` the aggregator
calls unguarded at `ml_insights.py` line 82) is not under src/. Spec
section 7 requires that component methods never raise: a collaborator
failure short-circuits to the documented fallback, contributing no
insights, so a failed fetch yields the empty list. -/
def watchdogGetMlRecommendations (watchdogCall : Except String (List WatchdogInsight)) :
    List WatchdogInsight :=
  match watchdogCall with
  | .ok l => l
  | .error _ => []

/-- The priority order of `_prioritize_recommendations`
(`ml_insights.py` lines 229-235), default 3 for unknown priorities. -/
def priorityRank (p : String) : ℕ :=
  if p = "critical" then 0
  else if p = "high" then 1
  else if p = "medium" then 2
  else 3

/-- Embedding of `_prioritize_recommendations` (`ml_insights.py` lines
227-237): Python's stable `sorted` by the key `(priority_rank,
-ml_confidence)`, embedded as a stable insertion sort under the
corresponding total preorder. -/
def prioritizeRecommendations (recs : List Recommendation) : List Recommendation :=
  List.insertionSort
    (fun a b => priorityRank a.priority < priorityRank b.priority ∨
      (priorityRank a.priority = priorityRank b.priority ∧ b.ml_confidence ≤ a.ml_confidence))
    recs

/-- The cost predictive-insight entry (`ml_insights.py` lines 56-64); the
title/description strings and recommended action are presentation-only and
collapsed into the type tag. -/
structure PredictiveInsight where
  type_tag : String
  severity : String
  ml_confidence : ℚ
  ml_model : String
deriving Repr, DecidableEq

def costInsight (p : CostPredictionPayload) : PredictiveInsight :=
  { type_tag := "cost_prediction"
    severity := if p.budget_risk = "critical" ∨ p.budget_risk = "high" then "high" else "medium"
    ml_confidence := p.confidence
    ml_model := p.ml_model }

/-- The quality predictive-insight entry (`ml_insights.py` lines 71-79). -/
def qualityInsight (p : QualityPredictionPayload) : PredictiveInsight :=
  { type_tag := "quality_prediction"
    severity := p.degradation_risk
    ml_confidence := p.confidence
    ml_model := p.ml_model }

/-- The recommendation the aggregator builds from each Watchdog insight
(`ml_insights.py` lines 84-93). -/
def watchdogRecommendation (i : WatchdogInsight) : Recommendation :=
  { priority := i.priority, ml_confidence := i.confidence, payload := i.title }

/-- The merged result of `generate_ml_recommendations`
(`ml_insights.py` lines 103-117). -/
structure InsightsResult where
  recommendations : List Recommendation
  predictive_insights : List PredictiveInsight
  ml_models_used_cost : Option String
  ml_models_used_quality : Option String
  ml_models_used_watchdog : Option String
  ml_models_used_routing : Option String
  conf_cost : Option ℚ
  conf_quality : Option ℚ
  conf_watchdog : Option ℚ
deriving Repr, DecidableEq

/-- Embedding of `generate_ml_recommendations` (`ml_insights.py` lines
35-117), with each fallible component call passed as an `Except` value. -/
def generateMlRecommendations (costCall : Except String CostPredictionOutcome)
    (qualityCall : Except String QualityPredictionOutcome)
    (watchdogCall : Except String (List WatchdogInsight))
    (routerCall : Except String RoutingOutcome) : InsightsResult :=
  let cost_prediction := getMlCostPrediction costCall
  let quality_prediction := getMlQualityPrediction qualityCall
  let recs1 := match cost_prediction with
    | some (.payload p) => p.recommendations
    | _ => []
  let insights1 := match cost_prediction with
    | some (.payload p) => [costInsight p]
    | _ => []
  let recs2 := match quality_prediction with
    | some (.payload p) => p.recommendations
    | _ => []
  let insights2 := match quality_prediction with
    | some (.payload p) =>
      if p.degradation_risk = "critical" ∨ p.degradation_risk = "high" then [qualityInsight p]
      else []
    | _ => []
  let watchdog_insights := watchdogGetMlRecommendations watchdogCall
  let recs3 := watchdog_insights.map watchdogRecommendation
  let routing_recommendation := getRoutingRecommendation routerCall
  let recs4 := routing_recommendation.toList
  { recommendations := prioritizeRecommendations (recs1 ++ recs2 ++ recs3 ++ recs4)
    predictive_insights := insights1 ++ insights2
    ml_models_used_cost := match cost_prediction with
      | some (.payload p) => some p.ml_model
      | _ => none
    ml_models_used_quality := match quality_prediction with
      | some (.payload p) => some p.ml_model
      | _ => none
    ml_models_used_watchdog := if watchdog_insights ≠ [] then some "datadog_watchdog" else none
    ml_models_used_routing := if routing_recommendation.isSome then some "ml_router" else none
    conf_cost := match cost_prediction with
      | some (.payload p) => some p.confidence
      | _ => none
    conf_quality := match quality_prediction with
      | some (.payload p) => some p.confidence
      | _ => none
    conf_watchdog := match watchdog_insights.map WatchdogInsight.confidence with
      | [] => none
      | c :: cs => some (cs.foldl max c) }

/-- Per-component contribution to the merged recommendation list and the
predictive insights, as the spec words it. -/
def costContribution (costCall : Except String CostPredictionOutcome) :
    List Recommendation × List PredictiveInsight :=
  match getMlCostPrediction costCall with
  | some (.payload p) => (p.recommendations, [costInsight p])
  | _ => ([], [])

def qualityContribution (qualityCall : Except String QualityPredictionOutcome) :
    List Recommendation × List PredictiveInsight :=
  match getMlQualityPrediction qualityCall with
  | some (.payload p) =>
    (p.recommendations,
      if p.degradation_risk = "critical" ∨ p.degradation_risk = "high" then [qualityInsight p]
      else [])
  | _ => ([], [])

def watchdogContribution (watchdogCall : Except String (List WatchdogInsight)) :
    List Recommendation :=
  (watchdogGetMlRecommendations watchdogCall).map watchdogRecommendation

def routerContribution (routerCall : Except String RoutingOutcome) : List Recommendation :=
  (getRoutingRecommendation routerCall).toList

/-- C7: the aggregation is total and never propagates a component failure:
the merged output always decomposes into the per-component contributions,
and a failed component (an exception contained by the aggregator's
try/except, a tagged error result, or - for the spec-modelled watchdog - a
failed fetch) contributes no recommendations and no predictive insights,
leaving the other components' contributions intact. -/
theorem generate_ml_recommendations_error_containment
    (costCall : Except String CostPredictionOutcome)
    (qualityCall : Except String QualityPredictionOutcome)
    (watchdogCall : Except String (List WatchdogInsight))
    (routerCall : Except String RoutingOutcome) (e : String) :
    ((generateMlRecommendations costCall qualityCall watchdogCall routerCall).recommendations =
        prioritizeRecommendations ((costContribution costCall).1 ++
          (qualityContribution qualityCall).1 ++ watchdogContribution watchdogCall ++
          routerContribution routerCall) ∧
      (generateMlRecommendations costCall qualityCall watchdogCall routerCall).predictive_insights =
        (costContribution costCall).2 ++ (qualityContribution qualityCall).2) ∧
    (costContribution (.error e) = ([], []) ∧
      costContribution (.ok .errorResult) = ([], [])) ∧
    (qualityContribution (.error e) = ([], []) ∧
      qualityContribution (.ok .errorResult) = ([], [])) ∧
    watchdogContribution (.error e) = [] ∧
    routerContribution (.error e) = [] ∧
    generateMlRecommendations (.error e) qualityCall watchdogCall routerCall =
      generateMlRecommendations (.ok .errorResult) qualityCall watchdogCall routerCall := by
  refine ⟨⟨?_, ?_⟩, ⟨rfl, rfl⟩, ⟨rfl, rfl⟩, rfl, rfl, rfl⟩
  · simp only [generateMlRecommendations, costContribution, qualityContribution,
      watchdogContribution, routerContribution]
    rcases getMlCostPrediction costCall with _ | _ | pc <;>
      rcases getMlQualityPrediction qualityCall with _ | _ | pq <;> rfl
  · simp only [generateMlRecommendations, costContribution, qualityContribution]
    rcases getMlCostPrediction costCall with _ | _ | pc <;>
      rcases getMlQualityPrediction qualityCall with _ | _ | pq <;> rfl

end MLInsights
